import Mathlib

/-!
Verification of the MindFlow API coordination layer (src/api/main.py)
against its natural-language specification.

The layer's own logic is embedded shallowly:

* Python `datetime` values are modeled by their `isoformat()` serialization
  (the only operation the layer applies to them).
* External effects (the FalkorDB store, the graphiti engine, the anthropic
  optional import, `datetime.fromisoformat`, `datetime.now`) are inputs:
  a fallible call is an `Except String` value supplied to the function,
  the optional import is a `Bool`, the parser is a function argument.
* `ValueError`s raised by `make_graphiti` are the `.error` branch of
  `Except String`, carrying the exact message strings from the source.
-/

/-- A Python `datetime` value, modeled by its `isoformat()` serialization,
which is the only operation the coordination layer applies to one. -/
structure PyDateTime where
  iso : String
deriving DecidableEq, Repr

/-- Projection of graphiti-core `EntityNode` onto the fields read by
`build_graph_response` (src/api/main.py:253-268).  `summary` and
`created_at` may be `None` in Python, hence `Option`. -/
structure EntityNode where
  uuid : String
  name : String
  summary : Option String
  labels : List String
  created_at : Option PyDateTime
deriving DecidableEq, Repr

/-- Projection of graphiti-core `EntityEdge` onto the fields read by
`build_graph_response` and `search` (src/api/main.py:248-283, 391-396). -/
structure EntityEdge where
  uuid : String
  source_node_uuid : String
  target_node_uuid : String
  name : String
  fact : Option String
  valid_at : Option PyDateTime
  invalid_at : Option PyDateTime
deriving DecidableEq, Repr

/-- `LLMConfig` (graphiti-core): the fields set by src/api/main.py.
Fields the source leaves to their defaults are `none`. -/
structure LLMConfig where
  api_key : String
  model : Option String
  small_model : Option String
  temperature : Option Nat
deriving DecidableEq, Repr

/-- The LLM client constructed by `make_graphiti`: either an
`OpenAIClient` or an `AnthropicClient`, each holding its config. -/
inductive LLMClient where
  | openai (config : LLMConfig)
  | anthropic (config : LLMConfig)
deriving DecidableEq, Repr

/-- `OpenAIEmbedderConfig` (graphiti-core): fields set at src/api/main.py:86-89. -/
structure OpenAIEmbedderConfig where
  api_key : String
  embedding_model : String
deriving DecidableEq, Repr

/-- `OpenAIEmbedder` client handle. -/
structure OpenAIEmbedder where
  config : OpenAIEmbedderConfig
deriving DecidableEq, Repr

/-- `OpenAIRerankerClient` handle; constructed at src/api/main.py:93-95
with an `LLMConfig` carrying only an api_key. -/
structure OpenAIRerankerClient where
  config : LLMConfig
deriving DecidableEq, Repr

/-- The `Graphiti` instance assembled by `make_graphiti`
(src/api/main.py:97-102).  The `graph_driver` argument is the external
store handle and carries no data this layer reads, so it is omitted. -/
structure Graphiti where
  llm_client : LLMClient
  embedder : OpenAIEmbedder
  cross_encoder : OpenAIRerankerClient
deriving DecidableEq, Repr

/-- The missing-embedding-credential `ValueError` message
(src/api/main.py:56-59, joined adjacent string literals). -/
def MISSING_EMBEDDER_KEY_MSG : String :=
  "Embeddings require an OpenAI API key. Either use OpenAI as your LLM provider, or set OPENAI_API_KEY on the server for embeddings."

/-- The `ValueError` message raised when the anthropic optional
dependency is not importable (src/api/main.py:65). -/
def ANTHROPIC_NOT_INSTALLED_MSG : String :=
  "Anthropic support requires: pip install graphiti-core[anthropic]"

/-- The embedder-key resolution chain of `make_graphiti`
(src/api/main.py:47-53).  `EMBEDDER_API_KEY` is the server-side
`OPENAI_API_KEY` environment fallback (src/api/main.py:28); Python
truthiness of a string is emptiness, so `elif embedder_key:` is
`embedder_key` being nonempty. -/
def effective_embedder_key (EMBEDDER_API_KEY llm_provider llm_api_key embedder_key : String) : String :=
  if llm_provider = "openai" then llm_api_key
  else if embedder_key = "" then
    (if EMBEDDER_API_KEY = "" then "" else EMBEDDER_API_KEY)
  else embedder_key

/-- `make_graphiti(llm_provider, llm_api_key, embedder_key="")`
(src/api/main.py:44-102).  `anthropicInstalled` models whether the
`from graphiti_core.llm_client.anthropic_client import AnthropicClient`
optional import succeeds; `EMBEDDER_API_KEY` is the server fallback.
Raised `ValueError`s are the `.error` branch. -/
def make_graphiti (anthropicInstalled : Bool) (EMBEDDER_API_KEY : String)
    (llm_provider llm_api_key embedder_key : String) : Except String Graphiti :=
  let key := effective_embedder_key EMBEDDER_API_KEY llm_provider llm_api_key embedder_key
  if key = "" then
    Except.error MISSING_EMBEDDER_KEY_MSG
  else
    match (if llm_provider = "anthropic" then
            (if anthropicInstalled then
              Except.ok (LLMClient.anthropic
                { api_key := llm_api_key,
                  model := some "claude-haiku-4-5-20251001",
                  small_model := some "claude-haiku-4-5-20251001",
                  temperature := some 0 })
            else Except.error ANTHROPIC_NOT_INSTALLED_MSG)
          else
            Except.ok (LLMClient.openai
              { api_key := llm_api_key,
                model := some "gpt-4.1-mini",
                small_model := some "gpt-4.1-nano",
                temperature := some 0 }) : Except String LLMClient) with
    | Except.error e => Except.error e
    | Except.ok llm_client =>
      Except.ok
        { llm_client := llm_client,
          embedder :=
            { config :=
              { api_key := key, embedding_model := "text-embedding-3-small" } },
          cross_encoder :=
            { config :=
              { api_key := key, model := none, small_model := none,
                temperature := none } } }

/-- C1: the embedding credential is resolved in priority order
(provider=openai reuses the LLM key even over a supplied hint; else a
nonempty hint; else the server fallback; else a configuration error),
and the reranking client always carries the resolved embedding
credential. -/
theorem C1_credential_priority
    (inst : Bool) (fb p lk ek : String) :
    (p = "openai" → effective_embedder_key fb p lk ek = lk) ∧
    (p ≠ "openai" → ek ≠ "" → effective_embedder_key fb p lk ek = ek) ∧
    (p ≠ "openai" → ek = "" → fb ≠ "" → effective_embedder_key fb p lk ek = fb) ∧
    (p ≠ "openai" → ek = "" → fb = "" →
      make_graphiti inst fb p lk ek = Except.error MISSING_EMBEDDER_KEY_MSG) ∧
    (∀ g, make_graphiti inst fb p lk ek = Except.ok g →
      g.cross_encoder.config.api_key = effective_embedder_key fb p lk ek) := by
  refine ⟨?_, ?_, ?_, ?_, ?_⟩
  · intro hp; simp [effective_embedder_key, hp]
  · intro hp he; simp [effective_embedder_key, hp, he]
  · intro hp he hf; simp [effective_embedder_key, hp, he, hf]
  · intro hp he hf
    simp [make_graphiti, effective_embedder_key, hp, he, hf]
  · intro g hg
    unfold make_graphiti at hg
    set key := effective_embedder_key fb p lk ek with hkey
    by_cases hk : key = ""
    · simp [hk] at hg
    · simp only [hk, if_false] at hg
      split at hg
      · exact absurd hg (by simp)
      · cases hg; rfl

/-- Witness for C1 at concrete inputs. -/
theorem C1_credential_priority_witness :
    effective_embedder_key "fb" "openai" "lk" "hint" = "lk" ∧
    effective_embedder_key "fb" "anthropic" "lk" "hint" = "hint" ∧
    effective_embedder_key "fb" "anthropic" "lk" "" = "fb" ∧
    make_graphiti true "" "anthropic" "lk" "" = Except.error MISSING_EMBEDDER_KEY_MSG ∧
    (∀ g, make_graphiti true "fb" "anthropic" "lk" "hint" = Except.ok g →
      g.cross_encoder.config.api_key = effective_embedder_key "fb" "anthropic" "lk" "hint") := by
  refine ⟨?_, ?_, ?_, ?_, ?_⟩
  · exact (C1_credential_priority true "fb" "openai" "lk" "hint").1 rfl
  · exact (C1_credential_priority true "fb" "anthropic" "lk" "hint").2.1 (by decide) (by decide)
  · exact (C1_credential_priority true "fb" "anthropic" "lk" "").2.2.1 (by decide) rfl (by decide)
  · exact (C1_credential_priority true "" "anthropic" "lk" "").2.2.2.1 (by decide) rfl rfl
  · exact (C1_credential_priority true "fb" "anthropic" "lk" "hint").2.2.2.2

/-- C6: with provider anthropic and no resolvable embedding credential,
routing fails with the configuration error (no client is constructed);
with a resolvable credential but anthropic support not installed, it
fails with the distinct not-installed error. -/
theorem C6_anthropic_errors
    (inst : Bool) (lk ek fb : String) :
    (ek = "" → fb = "" →
      make_graphiti inst fb "anthropic" lk ek = Except.error MISSING_EMBEDDER_KEY_MSG) ∧
    (effective_embedder_key fb "anthropic" lk ek ≠ "" →
      make_graphiti false fb "anthropic" lk ek = Except.error ANTHROPIC_NOT_INSTALLED_MSG) ∧
    MISSING_EMBEDDER_KEY_MSG ≠ ANTHROPIC_NOT_INSTALLED_MSG := by
  refine ⟨?_, ?_, by decide⟩
  · intro he hf
    simp [make_graphiti, effective_embedder_key, he, hf]
  · intro hk
    simp [make_graphiti, hk]

/-- Witness for C6 at concrete inputs. -/
theorem C6_anthropic_errors_witness :
    make_graphiti true "" "anthropic" "lk" "" = Except.error MISSING_EMBEDDER_KEY_MSG ∧
    make_graphiti false "" "anthropic" "lk" "sk-emb" = Except.error ANTHROPIC_NOT_INSTALLED_MSG := by
  constructor
  · exact (C6_anthropic_errors true "lk" "" "").1 rfl rfl
  · exact (C6_anthropic_errors false "lk" "sk-emb" "").2.1 (by decide)

/-- C10: an unrecognized provider string gets the OpenAI LLM client, but
its embedding credential resolves like the secondary vendor (hint, then
fallback, then error), so an unrecognized provider with only an LLM key
fails where provider "openai" would succeed with the same key. -/
theorem C10_unrecognized_provider
    (inst : Bool) (p lk ek fb : String)
    (hp1 : p ≠ "openai") (hp2 : p ≠ "anthropic") :
    (∀ g, make_graphiti inst fb p lk ek = Except.ok g →
      g.llm_client = LLMClient.openai
        { api_key := lk, model := some "gpt-4.1-mini",
          small_model := some "gpt-4.1-nano", temperature := some 0 }) ∧
    effective_embedder_key fb p lk ek = effective_embedder_key fb "anthropic" lk ek ∧
    (ek = "" → fb = "" →
      make_graphiti inst fb p lk ek = Except.error MISSING_EMBEDDER_KEY_MSG) ∧
    (lk ≠ "" → make_graphiti inst fb "openai" lk ek =
      Except.ok
        { llm_client := LLMClient.openai
            { api_key := lk, model := some "gpt-4.1-mini",
              small_model := some "gpt-4.1-nano", temperature := some 0 },
          embedder := { config :=
            { api_key := lk, embedding_model := "text-embedding-3-small" } },
          cross_encoder := { config :=
            { api_key := lk, model := none, small_model := none,
              temperature := none } } }) := by
  refine ⟨?_, ?_, ?_, ?_⟩
  · intro g hg
    unfold make_graphiti at hg
    by_cases hk : effective_embedder_key fb p lk ek = ""
    · simp [hk] at hg
    · simp only [hk, if_false, hp2, if_neg] at hg
      cases hg; rfl
  · simp [effective_embedder_key, hp1]
  · intro he hf
    simp [make_graphiti, effective_embedder_key, hp1, he, hf]
  · intro hlk
    simp [make_graphiti, effective_embedder_key, hlk]

/-- Witness for C10 at concrete inputs: provider "gemini" with only an
LLM key fails; the same key under "openai" succeeds. -/
theorem C10_unrecognized_provider_witness :
    make_graphiti true "" "gemini" "sk-llm" "" = Except.error MISSING_EMBEDDER_KEY_MSG ∧
    make_graphiti true "" "openai" "sk-llm" "" =
      Except.ok
        { llm_client := LLMClient.openai
            { api_key := "sk-llm", model := some "gpt-4.1-mini",
              small_model := some "gpt-4.1-nano", temperature := some 0 },
          embedder := { config :=
            { api_key := "sk-llm", embedding_model := "text-embedding-3-small" } },
          cross_encoder := { config :=
            { api_key := "sk-llm", model := none, small_model := none,
              temperature := none } } } := by
  constructor
  · exact (C10_unrecognized_provider true "gemini" "sk-llm" "" ""
      (by decide) (by decide)).2.2.1 rfl rfl
  · exact (C10_unrecognized_provider true "gemini" "sk-llm" "" ""
      (by decide) (by decide)).2.2.2 (by decide)

/-- Client-facing node projection `GraphEntity` (src/api/main.py:124-131).
`community` is declared with default `None` and never set by
`build_graph_response`. -/
structure GraphEntity where
  id : String
  name : String
  summary : String
  type : String
  created_at : String
  degree : Nat
  community : Option Int
deriving DecidableEq, Repr

/-- Client-facing edge projection `GraphRelationship` (src/api/main.py:134-141). -/
structure GraphRelationship where
  id : String
  source_id : String
  target_id : String
  fact : String
  type : String
  valid_at : Option String
  invalid_at : Option String
deriving DecidableEq, Repr

/-- The `metadata` dict assembled at src/api/main.py:288-293. -/
structure GraphMetadata where
  session_id : String
  entity_count : Nat
  relationship_count : Nat
  last_updated : String
deriving DecidableEq, Repr

/-- `KnowledgeGraphResponse` (src/api/main.py:144-147). -/
structure KnowledgeGraphResponse where
  entities : List GraphEntity
  relationships : List GraphRelationship
  metadata : GraphMetadata
deriving DecidableEq, Repr

/-- Python `x or ""` on an optional string: `None` and `""` are falsy,
anything else is itself (src/api/main.py:264, 279, 393). -/
def orEmpty : Option String → String
  | none => ""
  | some s => if s = "" then "" else s

/-- One `degree_map[k] = degree_map.get(k, 0) + 1` update
(src/api/main.py:249-250), on the map modeled as a total function with
default 0. -/
def bumpDeg (m : String → Nat) (k : String) : String → Nat :=
  fun u => if u = k then m k + 1 else m u

/-- The degree map built in one pass over edges
(src/api/main.py:247-250): each edge increments the count of its
source uuid and then of its target uuid. -/
def degree_map (edges : List EntityEdge) : String → Nat :=
  edges.foldl (fun m e => bumpDeg (bumpDeg m e.source_node_uuid) e.target_node_uuid)
    (fun _ => 0)

/-- Python `str.lower()` on one character, for the ASCII range in which
graphiti labels live. -/
def pyLowerChar (c : Char) : Char :=
  if 'A' ≤ c ∧ c ≤ 'Z' then Char.ofNat (c.toNat + 32) else c

/-- Python `str.lower()`: lower-case every character. -/
def pyLower (s : String) : String :=
  String.mk (s.data.map pyLowerChar)

/-- Node type inference (src/api/main.py:254-259): the first label whose
lower-casing is not one of the generic synonyms, lower-cased; "topic"
when there is none (including when `labels` is empty, which Python
treats as falsy). -/
def node_type (labels : List String) : String :=
  match labels.find? (fun l =>
      !(pyLower l == "entity" || pyLower l == "node" || pyLower l == "entitynode")) with
  | some l => pyLower l
  | none => "topic"

/-- The `GraphEntity` built for one node (src/api/main.py:261-268),
given the degree map. -/
def entity_of (dm : String → Nat) (node : EntityNode) : GraphEntity :=
  { id := node.uuid,
    name := node.name,
    summary := orEmpty node.summary,
    type := node_type node.labels,
    created_at := match node.created_at with
      | some d => d.iso
      | none => "",
    degree := dm node.uuid,
    community := none }

/-- The `GraphRelationship` built for one edge (src/api/main.py:271-283). -/
def relationship_of (edge : EntityEdge) : GraphRelationship :=
  { id := edge.uuid,
    source_id := edge.source_node_uuid,
    target_id := edge.target_node_uuid,
    fact := orEmpty edge.fact,
    type := if edge.name = "" then "related_to" else edge.name,
    valid_at := edge.valid_at.map (fun d => d.iso),
    invalid_at := edge.invalid_at.map (fun d => d.iso) }

/-- `build_graph_response(driver, session_id)` (src/api/main.py:223-294).
External calls are inputs: `cloneResult` is `driver.clone(session_id)`
(outside any try, so its failure propagates), `nodesResult` and
`edgesResult` are the two `get_by_group_ids` fetches (each wrapped in
try/except substituting `[]` with a logged warning), `now` is
`datetime.now(timezone.utc)` for the metadata timestamp. -/
def build_graph_response (cloneResult : Except String Unit)
    (nodesResult : Except String (List EntityNode))
    (edgesResult : Except String (List EntityEdge))
    (now : PyDateTime) (session_id : String) :
    Except String KnowledgeGraphResponse :=
  match cloneResult with
  | Except.error e => Except.error e
  | Except.ok _ =>
    let nodes := match nodesResult with
      | Except.ok ns => ns
      | Except.error _ => []
    let edges := match edgesResult with
      | Except.ok es => es
      | Except.error _ => []
    let dm := degree_map edges
    let entities := nodes.map (entity_of dm)
    let relationships := edges.map relationship_of
    Except.ok
      { entities := entities,
        relationships := relationships,
        metadata :=
          { session_id := session_id,
            entity_count := entities.length,
            relationship_count := relationships.length,
            last_updated := now.iso } }

/-- `bumpDeg` evaluated pointwise: it adds one exactly at the bumped key. -/
theorem bumpDeg_apply (m : String → Nat) (k u : String) :
    bumpDeg m k u = m u + (if k = u then 1 else 0) := by
  unfold bumpDeg
  by_cases h : u = k
  · subst h; simp
  · have hk : ¬ k = u := fun hh => h hh.symm
    simp [h, hk]

/-- The degree fold counts, for each key, the edges having it as source
plus the edges having it as target, on top of the starting map. -/
theorem degree_map_foldl (edges : List EntityEdge) (m : String → Nat) (u : String) :
    (edges.foldl
        (fun m e => bumpDeg (bumpDeg m e.source_node_uuid) e.target_node_uuid) m) u =
      m u + edges.countP (fun e => e.source_node_uuid == u) +
        edges.countP (fun e => e.target_node_uuid == u) := by
  induction edges generalizing m with
  | nil => simp
  | cons e es ih =>
    rw [List.foldl_cons, ih, bumpDeg_apply, bumpDeg_apply]
    simp only [List.countP_cons]
    by_cases hs : e.source_node_uuid = u <;> by_cases ht : e.target_node_uuid = u <;>
      simp [hs, ht] <;> omega

/-- `degree_map` closed form: source-occurrences plus target-occurrences. -/
theorem degree_map_eq_counts (edges : List EntityEdge) (u : String) :
    degree_map edges u =
      edges.countP (fun e => e.source_node_uuid == u) +
        edges.countP (fun e => e.target_node_uuid == u) := by
  unfold degree_map
  rw [degree_map_foldl]
  simp

/-- Modelled from the spec claim's words: the number of edges of the
fetched edge set in which the given id appears as source or as target
(a self-loop edge is one such edge). -/
def edges_incident_count (edges : List EntityEdge) (u : String) : Nat :=
  (edges.filter (fun e => e.source_node_uuid == u || e.target_node_uuid == u)).length

/-- A self-loop edge: source and target are the same node. -/
def selfLoopEdge : EntityEdge :=
  { uuid := "e1", source_node_uuid := "n1", target_node_uuid := "n1",
    name := "LIKES", fact := some "n1 likes n1",
    valid_at := none, invalid_at := none }

/-- The node the self-loop is incident to. -/
def selfLoopNode : EntityNode :=
  { uuid := "n1", name := "N1", summary := none, labels := ["Entity"],
    created_at := none }

/-- C2 counterexample: materializing one node with one self-loop edge
yields a degree field of 2, yet only 1 edge of the fetched set has the
node as source or target — the claim's equation fails on self-loops. -/
theorem C2_degree_counterexample :
    ((build_graph_response (Except.ok ()) (Except.ok [selfLoopNode])
        (Except.ok [selfLoopEdge]) { iso := "T" } "s").map
      (fun resp => resp.entities.map (fun ent => ent.degree)))
        = Except.ok [2] ∧
    edges_incident_count [selfLoopEdge] "n1" = 1 ∧
    (2 : Nat) ≠ 1 := by
  refine ⟨?_, by decide, by decide⟩
  rfl

/-- C2 amended: every node's degree field equals the number of fetched
edges having it as source plus the number having it as target (so a
self-loop contributes 2); it is recomputed from the edge set passed to
each `build_graph_response` call, the function being pure in that
argument. -/
theorem C2_degree_amended (nodes : List EntityNode) (edges : List EntityEdge)
    (now : PyDateTime) (sid : String) :
    ((build_graph_response (Except.ok ()) (Except.ok nodes) (Except.ok edges) now sid).map
      (fun resp => resp.entities) = Except.ok (nodes.map (entity_of (degree_map edges)))) ∧
    (∀ node : EntityNode, (entity_of (degree_map edges) node).degree =
      edges.countP (fun e => e.source_node_uuid == node.uuid) +
        edges.countP (fun e => e.target_node_uuid == node.uuid)) := by
  constructor
  · rfl
  · intro node
    exact degree_map_eq_counts edges node.uuid

/-- The generic-synonym test of the type-inference loop
(src/api/main.py:257): the label's lower-casing is one of
"entity", "node", "entitynode". -/
def is_generic_label (l : String) : Bool :=
  pyLower l == "entity" || pyLower l == "node" || pyLower l == "entitynode"

/-- Modelled from the spec claim's words: the number of descriptive
labels a node carries beyond the generic synonyms. -/
def descriptive_label_count (labels : List String) : Nat :=
  (labels.filter (fun l => !(is_generic_label l))).length

/-- `node_type` restated through `is_generic_label`. -/
theorem node_type_eq_find (labels : List String) :
    node_type labels =
      match labels.find? (fun l => !(is_generic_label l)) with
      | some l => pyLower l
      | none => "topic" := by
  unfold node_type is_generic_label
  rfl

/-- C4 counterexample: the node with labels ["Entity", "Person"] carries
exactly one descriptive label, so the claim's first rule demands type
"topic", but the code types it "person". -/
theorem C4_node_type_counterexample :
    descriptive_label_count ["Entity", "Person"] = 1 ∧
    node_type ["Entity", "Person"] = "person" ∧
    node_type ["Entity", "Person"] ≠ "topic" := by
  refine ⟨by decide, by decide, by decide⟩

/-- Helper: `find?` over a list whose prefix all fails the predicate
returns the first element satisfying it. -/
theorem find_first_after_failing (p : String → Bool) (pre : List String)
    (l : String) (post : List String)
    (hpre : ∀ x ∈ pre, p x = false) (hl : p l = true) :
    (pre ++ l :: post).find? p = some l := by
  induction pre with
  | nil => simp [List.find?_cons, hl]
  | cons a as ih =>
    have ha : p a = false := hpre a (by simp)
    rw [List.cons_append, List.find?_cons, ha]
    exact ih (fun x hx => hpre x (by simp [hx]))

/-- C4 amended: a node's type is "topic" exactly when it carries no
descriptive label beyond the generic synonyms (in particular when its
label list is empty); otherwise it is the first non-generic label,
lower-cased.  Labels {"Entity", "Person"} give "person" and {"Entity"}
gives "topic", as the claim's examples state. -/
theorem C4_node_type_amended (labels : List String) :
    ((∀ l ∈ labels, is_generic_label l = true) → node_type labels = "topic") ∧
    (∀ pre l post, labels = pre ++ l :: post →
      (∀ x ∈ pre, is_generic_label x = true) →
      is_generic_label l = false →
      node_type labels = pyLower l) ∧
    node_type ["Entity", "Person"] = "person" ∧
    node_type ["Entity"] = "topic" := by
  refine ⟨?_, ?_, by decide, by decide⟩
  · intro hall
    rw [node_type_eq_find]
    have hnone : labels.find? (fun l => !(is_generic_label l)) = none := by
      rw [List.find?_eq_none]
      intro x hx
      simp [hall x hx]
    rw [hnone]
  · intro pre l post heq hpre hl
    rw [node_type_eq_find, heq]
    rw [find_first_after_failing (fun l => !(is_generic_label l)) pre l post
      (fun x hx => by simp [hpre x hx]) (by simp [hl])]

/-- Witness for C4 amended at concrete inputs. -/
theorem C4_node_type_amended_witness :
    node_type ["Entity"] = "topic" ∧
    node_type ["Entity", "Person", "Place"] = "person" := by
  constructor
  · exact (C4_node_type_amended ["Entity"]).1 (by decide)
  · exact (C4_node_type_amended ["Entity", "Person", "Place"]).2.1
      ["Entity"] "Person" ["Place"] rfl (by decide) (by decide)

/-- C5: a node-fetch failure and an edge-fetch failure are each
independently replaced by an empty collection; only a failure of
`driver.clone(session_id)` aborts materialization; a session with no
data materializes to empty collections with zero counts, never an
error. -/
theorem C5_degrade_not_abort
    (nodesResult : Except String (List EntityNode))
    (edgesResult : Except String (List EntityEdge))
    (now : PyDateTime) (sid : String) :
    (∀ cloneErr,
      build_graph_response (Except.error cloneErr) nodesResult edgesResult now sid =
        Except.error cloneErr) ∧
    (∀ err,
      build_graph_response (Except.ok ()) nodesResult edgesResult now sid ≠
        Except.error err) ∧
    (∀ msgN resp,
      build_graph_response (Except.ok ()) (Except.error msgN) edgesResult now sid =
          Except.ok resp →
        resp.entities = [] ∧ resp.metadata.entity_count = 0) ∧
    (∀ msgN edges resp,
      build_graph_response (Except.ok ()) (Except.error msgN) (Except.ok edges) now sid =
          Except.ok resp →
        resp.relationships = edges.map relationship_of) ∧
    (∀ msgE resp,
      build_graph_response (Except.ok ()) nodesResult (Except.error msgE) now sid =
          Except.ok resp →
        resp.relationships = [] ∧ resp.metadata.relationship_count = 0) ∧
    (∀ msgE nodes resp,
      build_graph_response (Except.ok ()) (Except.ok nodes) (Except.error msgE) now sid =
          Except.ok resp →
        resp.entities = nodes.map (entity_of (degree_map []))) ∧
    (build_graph_response (Except.ok ()) (Except.ok []) (Except.ok []) now sid =
      Except.ok
        { entities := [], relationships := [],
          metadata :=
            { session_id := sid, entity_count := 0,
              relationship_count := 0, last_updated := now.iso } }) := by
  refine ⟨?_, ?_, ?_, ?_, ?_, ?_, ?_⟩
  · intro cloneErr; rfl
  · intro err h
    simp [build_graph_response] at h
  · intro msgN resp h
    cases h
    constructor <;> rfl
  · intro msgN edges resp h
    cases h
    rfl
  · intro msgE resp h
    cases h
    constructor <;> rfl
  · intro msgE nodes resp h
    cases h
    rfl
  · rfl

/-- Witness for C5 at concrete inputs: both fetches fail, the response
is still assembled and empty; a clone failure aborts. -/
theorem C5_degrade_not_abort_witness :
    build_graph_response (Except.error "down") (Except.ok []) (Except.ok [])
        { iso := "T" } "s" = Except.error "down" ∧
    build_graph_response (Except.ok ()) (Except.error "nfail") (Except.error "efail")
        { iso := "T" } "s" ≠ Except.error "efail" ∧
    (∀ resp,
      build_graph_response (Except.ok ()) (Except.error "nfail") (Except.error "efail")
          { iso := "T" } "s" = Except.ok resp →
        resp.entities = [] ∧ resp.metadata.entity_count = 0) ∧
    build_graph_response (Except.ok ()) (Except.ok []) (Except.ok [])
        { iso := "T" } "s" =
      Except.ok
        { entities := [], relationships := [],
          metadata :=
            { session_id := "s", entity_count := 0,
              relationship_count := 0, last_updated := "T" } } := by
  refine ⟨?_, ?_, ?_, ?_⟩
  · exact (C5_degrade_not_abort (Except.ok []) (Except.ok []) { iso := "T" } "s").1 "down"
  · exact (C5_degrade_not_abort (Except.error "nfail") (Except.error "efail")
      { iso := "T" } "s").2.1 "efail"
  · exact (C5_degrade_not_abort (Except.error "nfail") (Except.error "efail")
      { iso := "T" } "s").2.2.1 "nfail"
  · exact (C5_degrade_not_abort (Except.ok []) (Except.ok []) { iso := "T" } "s").2.2.2.2.2.2

/-- C9: an edge's type is the engine name when non-empty, else
"related_to"; an absent node creation time serializes to the empty
string while absent edge validity bounds serialize to null (`none`),
and present timestamps serialize to their ISO-8601 form; the
materialized response is built from exactly these projections. -/
theorem C9_edge_type_and_timestamps (edge : EntityEdge) (node : EntityNode)
    (dm : String → Nat) :
    (edge.name ≠ "" → (relationship_of edge).type = edge.name) ∧
    (edge.name = "" → (relationship_of edge).type = "related_to") ∧
    (node.created_at = none → (entity_of dm node).created_at = "") ∧
    (∀ d, node.created_at = some d → (entity_of dm node).created_at = d.iso) ∧
    (edge.valid_at = none → (relationship_of edge).valid_at = none) ∧
    (∀ d, edge.valid_at = some d → (relationship_of edge).valid_at = some d.iso) ∧
    (edge.invalid_at = none → (relationship_of edge).invalid_at = none) ∧
    (∀ d, edge.invalid_at = some d → (relationship_of edge).invalid_at = some d.iso) ∧
    (∀ nodes edges nowv sid,
      build_graph_response (Except.ok ()) (Except.ok nodes) (Except.ok edges) nowv sid =
        Except.ok
          { entities := nodes.map (entity_of (degree_map edges)),
            relationships := edges.map relationship_of,
            metadata :=
              { session_id := sid, entity_count := nodes.length,
                relationship_count := edges.length, last_updated := nowv.iso } }) := by
  refine ⟨?_, ?_, ?_, ?_, ?_, ?_, ?_, ?_, ?_⟩
  · intro h; simp [relationship_of, h]
  · intro h; simp [relationship_of, h]
  · intro h; simp [entity_of, h]
  · intro d h; simp [entity_of, h]
  · intro h; simp [relationship_of, h]
  · intro d h; simp [relationship_of, h]
  · intro h; simp [relationship_of, h]
  · intro d h; simp [relationship_of, h]
  · intro nodes edges nowv sid
    simp [build_graph_response]

/-- Witness for C9 at concrete inputs. -/
theorem C9_edge_type_and_timestamps_witness :
    (relationship_of selfLoopEdge).type = "LIKES" ∧
    (relationship_of
      { uuid := "e2", source_node_uuid := "a", target_node_uuid := "b",
        name := "", fact := none,
        valid_at := some { iso := "2024-01-01T00:00:00+00:00" },
        invalid_at := none }).type = "related_to" ∧
    (entity_of (degree_map []) selfLoopNode).created_at = "" ∧
    (relationship_of
      { uuid := "e2", source_node_uuid := "a", target_node_uuid := "b",
        name := "", fact := none,
        valid_at := some { iso := "2024-01-01T00:00:00+00:00" },
        invalid_at := none }).valid_at = some "2024-01-01T00:00:00+00:00" ∧
    (relationship_of selfLoopEdge).invalid_at = none := by
  refine ⟨?_, ?_, ?_, ?_, ?_⟩
  · exact (C9_edge_type_and_timestamps selfLoopEdge selfLoopNode (degree_map [])).1
      (by decide)
  · exact (C9_edge_type_and_timestamps
      { uuid := "e2", source_node_uuid := "a", target_node_uuid := "b",
        name := "", fact := none,
        valid_at := some { iso := "2024-01-01T00:00:00+00:00" },
        invalid_at := none } selfLoopNode (degree_map [])).2.1 rfl
  · exact (C9_edge_type_and_timestamps selfLoopEdge selfLoopNode (degree_map [])).2.2.1 rfl
  · exact (C9_edge_type_and_timestamps
      { uuid := "e2", source_node_uuid := "a", target_node_uuid := "b",
        name := "", fact := none,
        valid_at := some { iso := "2024-01-01T00:00:00+00:00" },
        invalid_at := none } selfLoopNode (degree_map [])).2.2.2.2.2.1
      { iso := "2024-01-01T00:00:00+00:00" } rfl
  · exact (C9_edge_type_and_timestamps selfLoopEdge selfLoopNode (degree_map [])).2.2.2.2.2.2.1 rfl

/-- Outcome of one `ensure_indices` call: the new value of the global
`indices_built` flag, whether `build_indices_and_constraints` was
attempted, and whether a warning was logged. -/
structure EnsureResult where
  indices_built : Bool
  attempted : Bool
  warned : Bool
deriving DecidableEq, Repr

/-- `ensure_indices(graphiti)` (src/api/main.py:161-171): skip when the
global flag is set; otherwise attempt the build (`buildResult` is the
outcome of `graphiti.build_indices_and_constraints()`), setting the flag
on success and only logging a warning on failure.  The `Except` return
carries any exception the function lets escape. -/
def ensure_indices (indices_built : Bool) (buildResult : Except String Unit) :
    Except String EnsureResult :=
  if indices_built then
    Except.ok { indices_built := true, attempted := false, warned := false }
  else
    match buildResult with
    | Except.ok _ =>
      Except.ok { indices_built := true, attempted := true, warned := false }
    | Except.error _ =>
      Except.ok { indices_built := false, attempted := true, warned := true }

/-- A sequence of `ensure_indices` calls within one process, threading
the flag and counting build attempts. -/
def runEnsures (flag : Bool) : List (Except String Unit) → Bool × Nat
  | [] => (flag, 0)
  | r :: rs =>
    match ensure_indices flag r with
    | Except.ok res =>
      let p := runEnsures res.indices_built rs
      (p.1, (if res.attempted then 1 else 0) + p.2)
    | Except.error _ => runEnsures flag rs

/-- C3: `ensure_indices` is a no-op when the flag is set; a successful
build sets the flag; a failed build leaves it unset, warns, and never
propagates the error; the flag is monotonic across calls, so repeated
successful calls attempt the build at most once per process. -/
theorem C3_index_lifecycle :
    (∀ r, ensure_indices true r =
      Except.ok { indices_built := true, attempted := false, warned := false }) ∧
    (ensure_indices false (Except.ok ()) =
      Except.ok { indices_built := true, attempted := true, warned := false }) ∧
    (∀ e, ensure_indices false (Except.error e) =
      Except.ok { indices_built := false, attempted := true, warned := true }) ∧
    (∀ flag r err, ensure_indices flag r ≠ Except.error err) ∧
    (∀ rs, runEnsures true rs = (true, 0)) ∧
    (∀ rs, (∀ r ∈ rs, r = Except.ok ()) →
      (runEnsures false rs).2 ≤ 1 ∧ (rs ≠ [] → (runEnsures false rs).1 = true)) := by
  have htrue : ∀ rs, runEnsures true rs = (true, 0) := by
    intro rs
    induction rs with
    | nil => rfl
    | cons r rs ih => simp [runEnsures, ensure_indices, ih]
  refine ⟨fun r => rfl, rfl, fun e => rfl, ?_, htrue, ?_⟩
  · intro flag r err h
    unfold ensure_indices at h
    by_cases hf : flag = true
    · simp [hf] at h
    · simp only [Bool.not_eq_true] at hf
      subst hf
      cases r <;> simp at h
  · intro rs hall
    cases rs with
    | nil => exact ⟨by simp [runEnsures], fun h => absurd rfl h⟩
    | cons r rs =>
      have hr : r = Except.ok () := hall r (by simp)
      subst hr
      simp [runEnsures, ensure_indices, htrue]

/-- Witness for C3 at concrete inputs: three consecutive successful
calls attempt the build exactly at most once and leave the flag set. -/
theorem C3_index_lifecycle_witness :
    ensure_indices true (Except.error "boom") =
      Except.ok { indices_built := true, attempted := false, warned := false } ∧
    ensure_indices false (Except.error "boom") =
      Except.ok { indices_built := false, attempted := true, warned := true } ∧
    (runEnsures false [Except.ok (), Except.ok (), Except.ok ()]).2 ≤ 1 ∧
    (runEnsures false [Except.ok (), Except.ok (), Except.ok ()]).1 = true := by
  refine ⟨?_, ?_, ?_, ?_⟩
  · exact C3_index_lifecycle.1 (Except.error "boom")
  · exact C3_index_lifecycle.2.2.1 "boom"
  · exact (C3_index_lifecycle.2.2.2.2.2 [Except.ok (), Except.ok (), Except.ok ()]
      (by intro r hr; simp at hr; simp [hr])).1
  · exact (C3_index_lifecycle.2.2.2.2.2 [Except.ok (), Except.ok (), Except.ok ()]
      (by intro r hr; simp at hr; simp [hr])).2 (by simp)

/-- `SearchResult` (src/api/main.py:150-153): the only fields a search
result carries — no degree, type, or temporal fields exist in the
model. -/
structure SearchResult where
  fact : String
  source : String
  target : String
deriving DecidableEq, Repr

/-- The fixed `num_results` cap passed to the engine (src/api/main.py:387). -/
def SEARCH_NUM_RESULTS : Nat := 20

/-- The projection loop of the search endpoint (src/api/main.py:390-396). -/
def search_results (edges : List EntityEdge) : List SearchResult :=
  edges.map (fun edge =>
    { fact := orEmpty edge.fact,
      source := edge.source_node_uuid,
      target := edge.target_node_uuid })

/-- The search endpoint's engine call and projection
(src/api/main.py:383-398): `engine` is `graphiti.search`, called with
the query, the single-session group-id list, and `num_results = 20`. -/
def search (engine : String → List String → Nat → List EntityEdge)
    (query session_id : String) : List SearchResult :=
  search_results (engine query [session_id] SEARCH_NUM_RESULTS)

/-- C8: the engine is asked for at most the fixed cap of 20 results,
and, the engine honoring that bound, at most 20 results are returned;
each result is exactly the {fact (default ""), source id, target id}
projection of an engine edge. -/
theorem C8_search_cap_and_shape
    (engine : String → List String → Nat → List EntityEdge)
    (query sid : String)
    (hengine : ∀ q g n, (engine q g n).length ≤ n) :
    SEARCH_NUM_RESULTS = 20 ∧
    (search engine query sid).length ≤ 20 ∧
    search engine query sid =
      (engine query [sid] 20).map (fun edge =>
        { fact := orEmpty edge.fact,
          source := edge.source_node_uuid,
          target := edge.target_node_uuid }) := by
  refine ⟨rfl, ?_, rfl⟩
  have h := hengine query [sid] SEARCH_NUM_RESULTS
  simpa [search, search_results] using h

/-- Witness for C8 at a concrete engine that holds 30 matching edges
but honors `num_results`. -/
theorem C8_search_cap_and_shape_witness :
    (search (fun _ _ n => (List.replicate 30 selfLoopEdge).take n) "q" "s").length ≤ 20 ∧
    search (fun _ _ n => (List.replicate 30 selfLoopEdge).take n) "q" "s" =
      ((List.replicate 30 selfLoopEdge).take 20).map (fun edge =>
        { fact := orEmpty edge.fact,
          source := edge.source_node_uuid,
          target := edge.target_node_uuid }) := by
  have h := C8_search_cap_and_shape
    (fun _ _ n => (List.replicate 30 selfLoopEdge).take n) "q" "s"
    (fun q g n => by simp)
  exact ⟨h.2.1, h.2.2⟩

/-- Python `str.replace(old, new)` for a one-character pattern — the
call at src/api/main.py:330 replaces the single character "Z" — so
every occurrence of the character is replaced. -/
def replaceChar (old : Char) (new : List Char) : List Char → List Char
  | [] => []
  | c :: cs => (if c = old then new else [c]) ++ replaceChar old new cs

/-- `replaceChar` distributes over list append. -/
theorem replaceChar_append (old : Char) (new l1 l2 : List Char) :
    replaceChar old new (l1 ++ l2) =
      replaceChar old new l1 ++ replaceChar old new l2 := by
  induction l1 with
  | nil => rfl
  | cons c cs ih => simp [replaceChar, ih]

/-- The reference-time resolution of the ingest endpoint
(src/api/main.py:326-332): default to `now`
(`datetime.now(timezone.utc)`); a supplied truthy timestamp string is
parsed after replacing "Z" with "+00:00" (`fromiso` models
`datetime.fromisoformat`, whose raised `ValueError` is its `none`),
silently falling back to `now` on parse failure; Python truthiness of
`req.timestamp` makes an empty string behave like an absent one. -/
def resolve_ref_time (fromiso : String → Option PyDateTime) (now : PyDateTime)
    (timestamp : Option String) : PyDateTime :=
  match timestamp with
  | none => now
  | some ts =>
    if ts = "" then now
    else
      match fromiso (String.mk (replaceChar 'Z' "+00:00".data ts.data)) with
      | some t => t
      | none => now

/-- C7: the reference time defaults to the current time; a timestamp
ending in "Z" resolves exactly as the same string with "+00:00" in its
place, for every parser; a timestamp whose (Z-normalized) form the
parser rejects falls back to the current time — `resolve_ref_time` is
total, so no exception escapes. -/
theorem C7_reference_time (fromiso : String → Option PyDateTime) (now : PyDateTime) :
    resolve_ref_time fromiso now none = now ∧
    (∀ s : String,
      resolve_ref_time fromiso now (some (String.mk (s.data ++ ['Z']))) =
        resolve_ref_time fromiso now (some (String.mk (s.data ++ "+00:00".data)))) ∧
    (∀ ts : String, ts ≠ "" →
      fromiso (String.mk (replaceChar 'Z' "+00:00".data ts.data)) = none →
      resolve_ref_time fromiso now (some ts) = now) := by
  refine ⟨rfl, ?_, ?_⟩
  · intro s
    have hne1 : String.mk (s.data ++ ['Z']) ≠ "" := by
      intro h
      have hd := congrArg String.data h
      simp at hd
    have hne2 : String.mk (s.data ++ "+00:00".data) ≠ "" := by
      intro h
      have hd := congrArg String.data h
      simp at hd
    have h1 : replaceChar 'Z' "+00:00".data (s.data ++ ['Z']) =
        replaceChar 'Z' "+00:00".data s.data ++ "+00:00".data := by
      rw [replaceChar_append]
      simp [replaceChar]
    have h2 : replaceChar 'Z' "+00:00".data (s.data ++ "+00:00".data) =
        replaceChar 'Z' "+00:00".data s.data ++ "+00:00".data := by
      rw [replaceChar_append]
      congr 1
    simp only [resolve_ref_time, if_neg hne1, if_neg hne2]
    rw [h1, h2]
  · intro ts hne hparse
    simp only [resolve_ref_time, if_neg hne, hparse]

/-- Witness for C7 at a concrete parser: the spec's example string with
"Z" and with "+00:00" resolve identically, and a malformed string falls
back to `now`. -/
theorem C7_reference_time_witness :
    resolve_ref_time
        (fun s => if s = "2024-01-01T00:00:00+00:00"
          then some { iso := "2024-01-01T00:00:00+00:00" } else none)
        { iso := "NOW" } none = { iso := "NOW" } ∧
    resolve_ref_time
        (fun s => if s = "2024-01-01T00:00:00+00:00"
          then some { iso := "2024-01-01T00:00:00+00:00" } else none)
        { iso := "NOW" }
        (some (String.mk ("2024-01-01T00:00:00".data ++ ['Z']))) =
      resolve_ref_time
        (fun s => if s = "2024-01-01T00:00:00+00:00"
          then some { iso := "2024-01-01T00:00:00+00:00" } else none)
        { iso := "NOW" }
        (some (String.mk ("2024-01-01T00:00:00".data ++ "+00:00".data))) ∧
    resolve_ref_time
        (fun s => if s = "2024-01-01T00:00:00+00:00"
          then some { iso := "2024-01-01T00:00:00+00:00" } else none)
        { iso := "NOW" } (some "not-a-date") = { iso := "NOW" } := by
  refine ⟨?_, ?_, ?_⟩
  · exact (C7_reference_time
      (fun s => if s = "2024-01-01T00:00:00+00:00"
        then some { iso := "2024-01-01T00:00:00+00:00" } else none)
      { iso := "NOW" }).1
  · exact (C7_reference_time
      (fun s => if s = "2024-01-01T00:00:00+00:00"
        then some { iso := "2024-01-01T00:00:00+00:00" } else none)
      { iso := "NOW" }).2.1 "2024-01-01T00:00:00"
  · exact (C7_reference_time
      (fun s => if s = "2024-01-01T00:00:00+00:00"
        then some { iso := "2024-01-01T00:00:00+00:00" } else none)
      { iso := "NOW" }).2.2 "not-a-date" (by decide) (by decide)
